import Mathlib

/-!
Verification development for the fund-recommendation advisory pipeline.

Shallow embedding of the core components:
* `CriticAgent.validate` and its five checks (src/agents/critic.py),
* `FundExpertAgent._screen_funds` (src/agents/fund_expert.py),
* `RequirementAgent._extract_profile` (src/agents/requirement.py),
* the `GroupChatManager` conversation state machine and its
  generate-and-validate recommendation cycle (src/agents/manager.py),
* the `FundDataService` provider-fallback resolvers (src/services/fund_data.py),
* the `CacheDB` write operations (src/cache/db.py).

Free text handled by regexes in the source is embedded at the level of its
extraction results: a `RecDoc` carries exactly the tag counts, tag-presence
flags, extracted allocation percentages, extracted risk-warning/disclaimer
body lengths and keyword-presence flags that the critic's regexes and
substring tests compute from the recommendation string.
-/

namespace FundAdvisor

/-- Risk levels handled by the system. The four named tiers correspond to the
strings 保守型 / 稳健型 / 积极型 / 激进型; `other` stands for any string that
is not one of the four (the critic and screener both have a default branch
for it). -/
inductive RiskLevel
  | conservative
  | steady
  | active
  | aggressive
  | other
deriving DecidableEq

/-- Feedback items produced by the critic, one constructor per distinct
feedback message of src/agents/critic.py. Top-level tags are indexed
0 = analysis, 1 = fund_evaluation, 2 = recommendation, 3 = disclaimer;
fund tags 0 = code, 1 = name, 2 = allocation, 3 = rationale,
4 = risk_warning, 5 = confidence; conservative-tier forbidden keywords
0 = 股票型, 1 = 行业主题, 2 = 创业板, 3 = 科创板. -/
inductive Issue
  | tagUnbalanced (tag openCnt closeCnt : Nat)
  | missingFundTag (tag : Nat)
  | noAllocations
  | allocSumOff (total : ℚ)
  | noRiskWarning
  | fundMissingWarning (idx : Nat)
  | warningTooBrief
  | forbiddenType (kw : Nat)
  | missingStockTypes
  | unknownRiskLevel
  | missingDisclaimer
  | disclaimerTooBrief
  | disclaimerBadFormat
deriving DecidableEq

/-- Regex/substring extraction results of a recommendation string, as computed
by the checks of CriticAgent: tag open/close counts, fund-tag presence,
extracted `<allocation>N%</allocation>` figures, extracted risk-warning body
lengths (after strip), per-`<fund>`-block risk-warning presence, keyword
presence flags, and the disclaimer-body match. -/
structure RecDoc where
  analysisOpen : Nat
  analysisClose : Nat
  fundEvalOpen : Nat
  fundEvalClose : Nat
  recOpen : Nat
  recClose : Nat
  disclaimerOpen : Nat
  disclaimerClose : Nat
  hasCodeTag : Bool
  hasNameTag : Bool
  hasAllocTag : Bool
  hasRationaleTag : Bool
  hasWarningTag : Bool
  hasConfidenceTag : Bool
  /-- values matched by `<allocation>(\d+(?:\.\d+)?)\s*%</allocation>`; the
  regex only matches unsigned numerals, so entries are nonnegative. -/
  allocations : List ℚ
  /-- stripped body length of each `<risk_warning>...</risk_warning>` match. -/
  riskWarningLens : List Nat
  /-- for each `<fund>...</fund>` block, whether it contains `<risk_warning>`. -/
  fundHasWarning : List Bool
  hasStockFundKw : Bool
  hasIndustryThemeKw : Bool
  hasChiNextKw : Bool
  hasStarMarketKw : Bool
  /-- any of 股票 / 混合 / 指数 occurs in the text. -/
  hasEquityKw : Bool
  /-- stripped body length of the first `<disclaimer>(.*?)</disclaimer>`
  match, `none` when the regex finds no match. -/
  disclaimerBodyLen : Option Nat
deriving DecidableEq

/-- CriticAgent._validate_xml_format: every required top-level tag must open
and close an equal number of times and every required fund tag must occur. -/
def validate_xml_format (d : RecDoc) : Bool × List Issue :=
  let fb :=
    (if d.analysisOpen ≠ d.analysisClose then
      [Issue.tagUnbalanced 0 d.analysisOpen d.analysisClose] else []) ++
    (if d.fundEvalOpen ≠ d.fundEvalClose then
      [Issue.tagUnbalanced 1 d.fundEvalOpen d.fundEvalClose] else []) ++
    (if d.recOpen ≠ d.recClose then
      [Issue.tagUnbalanced 2 d.recOpen d.recClose] else []) ++
    (if d.disclaimerOpen ≠ d.disclaimerClose then
      [Issue.tagUnbalanced 3 d.disclaimerOpen d.disclaimerClose] else []) ++
    (if d.hasCodeTag then [] else [Issue.missingFundTag 0]) ++
    (if d.hasNameTag then [] else [Issue.missingFundTag 1]) ++
    (if d.hasAllocTag then [] else [Issue.missingFundTag 2]) ++
    (if d.hasRationaleTag then [] else [Issue.missingFundTag 3]) ++
    (if d.hasWarningTag then [] else [Issue.missingFundTag 4]) ++
    (if d.hasConfidenceTag then [] else [Issue.missingFundTag 5])
  (fb.isEmpty, fb)

/-- Sum of the extracted allocation percentages. -/
def allocTotal (d : RecDoc) : ℚ :=
  d.allocations.foldl (· + ·) 0

/-- CriticAgent._validate_allocation_sum: no extracted figures is an automatic
failure; otherwise the sum must be within 1 of 100. -/
def validate_allocation_sum (d : RecDoc) : Bool × List Issue :=
  if d.allocations.isEmpty then
    (false, [Issue.noAllocations])
  else if 1 < |allocTotal d - 100| then
    (false, [Issue.allocSumOff (allocTotal d)])
  else
    (true, [])

/-- CriticAgent._validate_risk_disclosure: at least one risk warning, one per
fund block, each warning at least 5 characters after strip. -/
def validate_risk_disclosure (d : RecDoc) : Bool × List Issue :=
  if d.riskWarningLens.isEmpty then
    (false, [Issue.noRiskWarning])
  else
    let fb :=
      (d.fundHasWarning.enum.filterMap fun p =>
        if p.2 then none else some (Issue.fundMissingWarning (p.1 + 1))) ++
      (d.riskWarningLens.filterMap fun l =>
        if l < 5 then some Issue.warningTooBrief else none)
    (fb.isEmpty, fb)

/-- CriticAgent._validate_risk_level_match: conservative tier must not mention
any forbidden high-volatility category; aggressive tier must mention at least
one equity-related keyword; an unknown risk level records feedback but does
not block (returns valid). -/
def validate_risk_level_match (d : RecDoc) (rl : RiskLevel) : Bool × List Issue :=
  match rl with
  | RiskLevel.other => (true, [Issue.unknownRiskLevel])
  | RiskLevel.conservative =>
    let fb :=
      (if d.hasStockFundKw then [Issue.forbiddenType 0] else []) ++
      (if d.hasIndustryThemeKw then [Issue.forbiddenType 1] else []) ++
      (if d.hasChiNextKw then [Issue.forbiddenType 2] else []) ++
      (if d.hasStarMarketKw then [Issue.forbiddenType 3] else [])
    (fb.isEmpty, fb)
  | RiskLevel.aggressive =>
    if d.hasEquityKw then (true, []) else (false, [Issue.missingStockTypes])
  | _ => (true, [])

/-- CriticAgent._validate_disclaimer: both disclaimer tags must be present and
the matched body must be at least 10 characters after strip. -/
def validate_disclaimer (d : RecDoc) : Bool × List Issue :=
  if d.disclaimerOpen = 0 ∨ d.disclaimerClose = 0 then
    (false, [Issue.missingDisclaimer])
  else
    match d.disclaimerBodyLen with
    | some l => if l < 10 then (false, [Issue.disclaimerTooBrief]) else (true, [])
    | none => (false, [Issue.disclaimerBadFormat])

/-- Validation outcome: pass flag, ordered feedback, numeric score.
The source stores the score as a float but only ever assigns it integer
values, so it is embedded as `Int`. -/
structure ValidationResult where
  passed : Bool
  feedback : List Issue
  score : Int
deriving DecidableEq

/-- CriticAgent.validate: start from 100, subtract 20/25/20/25/10 for the
five failed checks in order, clamp to [0,100], pass iff score ≥ 60. -/
def validate (d : RecDoc) (rl : RiskLevel) : ValidationResult :=
  let xmlOk := (validate_xml_format d).1
  let allocOk := (validate_allocation_sum d).1
  let discOk := (validate_risk_disclosure d).1
  let riskOk := (validate_risk_level_match d rl).1
  let disclOk := (validate_disclaimer d).1
  let rawScore : Int :=
    100 - (if xmlOk then 0 else 20) - (if allocOk then 0 else 25)
      - (if discOk then 0 else 20) - (if riskOk then 0 else 25)
      - (if disclOk then 0 else 10)
  let score := max 0 (min 100 rawScore)
  { passed := decide (60 ≤ score)
    feedback :=
      (validate_xml_format d).2 ++ (validate_allocation_sum d).2 ++
      (validate_risk_disclosure d).2 ++ (validate_risk_level_match d rl).2 ++
      (validate_disclaimer d).2
    score := score }

/-- The un-clamped score: 100 minus the five deductions. -/
def rawDeductedScore (d : RecDoc) (rl : RiskLevel) : Int :=
  100 - (if (validate_xml_format d).1 then 0 else 20)
    - (if (validate_allocation_sum d).1 then 0 else 25)
    - (if (validate_risk_disclosure d).1 then 0 else 20)
    - (if (validate_risk_level_match d rl).1 then 0 else 25)
    - (if (validate_disclaimer d).1 then 0 else 10)

theorem rawDeductedScore_bounds (d : RecDoc) (rl : RiskLevel) :
    0 ≤ rawDeductedScore d rl ∧ rawDeductedScore d rl ≤ 100 := by
  unfold rawDeductedScore
  rcases (validate_xml_format d).1 <;>
    rcases (validate_allocation_sum d).1 <;>
      rcases (validate_risk_disclosure d).1 <;>
        rcases (validate_risk_level_match d rl).1 <;>
          rcases (validate_disclaimer d).1 <;> simp

theorem validate_score_eq_raw (d : RecDoc) (rl : RiskLevel) :
    (validate d rl).score = rawDeductedScore d rl := by
  obtain ⟨h0, h100⟩ := rawDeductedScore_bounds d rl
  have hv : (validate d rl).score = max 0 (min 100 (rawDeductedScore d rl)) := rfl
  rw [hv]
  omega

theorem validate_passed_eq (d : RecDoc) (rl : RiskLevel) :
    (validate d rl).passed = decide (60 ≤ (validate d rl).score) := rfl

/-- C2: the validator's score starts from 100 and applies exactly the five
independent deductions (structure −20, allocation −25, disclosure −20,
tier consistency −25, disclaimer −10); the final score lies in [0,100]
(the clamp never truncates, since the deductions total at most 100) and the
pass flag equals (score ≥ 60). -/
theorem validate_score_formula_clamp_pass (d : RecDoc) (rl : RiskLevel) :
    (validate d rl).score =
        100 - (if (validate_xml_format d).1 then 0 else 20)
          - (if (validate_allocation_sum d).1 then 0 else 25)
          - (if (validate_risk_disclosure d).1 then 0 else 20)
          - (if (validate_risk_level_match d rl).1 then 0 else 25)
          - (if (validate_disclaimer d).1 then 0 else 10)
      ∧ 0 ≤ (validate d rl).score ∧ (validate d rl).score ≤ 100
      ∧ (validate d rl).passed = decide (60 ≤ (validate d rl).score) := by
  refine ⟨validate_score_eq_raw d rl, ?_, ?_, validate_passed_eq d rl⟩
  · rw [validate_score_eq_raw d rl]
    exact (rawDeductedScore_bounds d rl).1
  · rw [validate_score_eq_raw d rl]
    exact (rawDeductedScore_bounds d rl).2

/-- C3: if the extracted allocation figures are nonempty and their sum is
within 1 of 100, the allocation check passes (no −25 deduction); if the sum
is 90, the check fails and the overall score is exactly 25 below the score
the other four checks alone would give; if no figures were extracted, the
check automatically fails. -/
theorem allocation_sum_check_spec (d : RecDoc) (rl : RiskLevel) :
    (d.allocations ≠ [] → |allocTotal d - 100| ≤ 1 →
      (validate_allocation_sum d).1 = true)
    ∧ (allocTotal d = 90 →
        (validate_allocation_sum d).1 = false ∧
        (validate d rl).score =
          (100 - (if (validate_xml_format d).1 then 0 else 20)
            - (if (validate_risk_disclosure d).1 then 0 else 20)
            - (if (validate_risk_level_match d rl).1 then 0 else 25)
            - (if (validate_disclaimer d).1 then 0 else 10)) - 25)
    ∧ (d.allocations = [] → (validate_allocation_sum d).1 = false) := by
  refine ⟨?_, ?_, ?_⟩
  · intro hne hclose
    unfold validate_allocation_sum
    simp only [List.isEmpty_iff]
    rw [if_neg hne, if_neg (by exact not_lt.mpr hclose)]
  · intro h90
    have hne : ¬ d.allocations.isEmpty := by
      intro hemp
      rw [List.isEmpty_iff] at hemp
      unfold allocTotal at h90
      rw [hemp] at h90
      norm_num at h90
    have hfail : (validate_allocation_sum d).1 = false := by
      unfold validate_allocation_sum
      rw [if_neg hne, if_pos]
      rw [h90]
      norm_num
    refine ⟨hfail, ?_⟩
    rw [validate_score_eq_raw d rl]
    unfold rawDeductedScore
    rw [hfail]
    simp only [Bool.false_eq_true, if_false]
    ring
  · intro hnil
    unfold validate_allocation_sum
    rw [if_pos (by rw [List.isEmpty_iff]; exact hnil)]

/-- A structurally perfect two-fund recommendation allocating 30%/70%,
mirroring test case 1 of src/agents/critic.py. -/
def perfectDoc : RecDoc where
  analysisOpen := 1
  analysisClose := 1
  fundEvalOpen := 1
  fundEvalClose := 1
  recOpen := 1
  recClose := 1
  disclaimerOpen := 1
  disclaimerClose := 1
  hasCodeTag := true
  hasNameTag := true
  hasAllocTag := true
  hasRationaleTag := true
  hasWarningTag := true
  hasConfidenceTag := true
  allocations := [30, 70]
  riskWarningLens := [12, 9]
  fundHasWarning := [true, true]
  hasStockFundKw := false
  hasIndustryThemeKw := false
  hasChiNextKw := false
  hasStarMarketKw := false
  hasEquityKw := true
  disclaimerBodyLen := some 30

/-- Like `perfectDoc` but with no extractable allocation figures. -/
def noAllocDoc : RecDoc :=
  { perfectDoc with allocations := [] }

theorem allocation_sum_check_spec_witness :
    (validate_allocation_sum noAllocDoc).1 = false :=
  (allocation_sum_check_spec noAllocDoc RiskLevel.steady).2.2 rfl

/-! Screening engine (FundExpertAgent._screen_funds). A candidate is a
ranking entry joined with the resolver/cache-supplied statistics the source
looks up per fund code: the performance cache (max drawdown, volatility),
the latest rating row, and the parsed 亿-denominated size figure
(`size_value` in the source; `none` embeds a missing or unparseable size,
which the source collapses to the sentinel 0). -/

/-- Risk statistics computed from cached valuation history. -/
structure PerfRec where
  max_drawdown : ℚ
  volatility : ℚ
deriving DecidableEq

/-- Latest rating row for a fund; 0 embeds a NULL (falsy) star rating. -/
structure RatingRec where
  rating_1y : Nat
  rating_2y : Nat
  rating_3y : Nat
deriving DecidableEq

/-- A ranking entry joined with its cached statistics. -/
structure Candidate where
  fund_code : Nat
  return_1y : ℚ
  perf : Option PerfRec
  rating : Option RatingRec
  size_value : Option ℚ
deriving DecidableEq

/-- Per-tier screening thresholds (risk_thresholds in the source; the last
row is the default used for an unknown risk level). -/
structure Thresholds where
  max_drawdown : ℚ
  volatility : ℚ
  min_rating : Nat

def risk_thresholds : RiskLevel → Thresholds
  | RiskLevel.conservative => ⟨5, 3, 3⟩
  | RiskLevel.steady => ⟨10, 8, 3⟩
  | RiskLevel.active => ⟨20, 15, 2⟩
  | RiskLevel.aggressive => ⟨50, 30, 0⟩
  | RiskLevel.other => ⟨15, 20, 2⟩

/-- perf.get("max_drawdown", 100): default 100 when the cache has no row. -/
def maxDdOf (c : Candidate) : ℚ :=
  match c.perf with
  | some p => p.max_drawdown
  | none => 100

/-- perf.get("volatility", 50): default 50 when the cache has no row. -/
def volOf (c : Candidate) : ℚ :=
  match c.perf with
  | some p => p.volatility
  | none => 50

/-- rating_3y or rating_2y or rating_1y or 0 (Python falsy chaining). -/
def ratingOf (c : Candidate) : Nat :=
  match c.rating with
  | none => 0
  | some r =>
    if r.rating_3y ≠ 0 then r.rating_3y
    else if r.rating_2y ≠ 0 then r.rating_2y
    else if r.rating_1y ≠ 0 then r.rating_1y
    else 0

/-- The source's size_value: the parsed figure, or the sentinel 0. -/
def sizeValOf (c : Candidate) : ℚ :=
  c.size_value.getD 0

/-- The filter body of _screen_funds, one `continue` per `if`. -/
def screenKeep (th : Thresholds) (c : Candidate) : Bool :=
  if c.return_1y ≤ 0 then false
  else if th.max_drawdown < maxDdOf c then false
  else if th.volatility < volOf c then false
  else if ratingOf c < th.min_rating then false
  else if 0 < sizeValOf c ∧ (sizeValOf c < 2 ∨ 500 < sizeValOf c) then false
  else true

/-- Descending comparison on trailing 1-year return
(sort key=return_1y, reverse=True). -/
def retDescBy (a b : Candidate) : Bool :=
  decide (b.return_1y ≤ a.return_1y)

/-- FundExpertAgent._screen_funds: filter, sort descending by trailing
1-year return, truncate to the fixed shortlist size 50. -/
def screen_funds (rl : RiskLevel) (pool : List Candidate) : List Candidate :=
  ((pool.filter (screenKeep (risk_thresholds rl))).mergeSort retDescBy).take 50

/-- The screening predicate as the spec/claim words it, clause for clause:
trailing 1-year return strictly positive; max drawdown at most the tier
tolerance; volatility at most the tier tolerance; rating at least the tier
minimum (the aggressive tier's minimum is 0, so unrated instruments pass);
size within the [2, 500] band, with missing size data passed through. -/
def specScreenKeep (th : Thresholds) (c : Candidate) : Bool :=
  decide (0 < c.return_1y) &&
  decide (maxDdOf c ≤ th.max_drawdown) &&
  decide (volOf c ≤ th.volatility) &&
  decide (th.min_rating ≤ ratingOf c) &&
  (match c.size_value with
   | none => true
   | some v => decide (2 ≤ v) && decide (v ≤ 500))

theorem screenKeep_eq_spec (th : Thresholds) (c : Candidate)
    (hpos : ∀ v, c.size_value = some v → 0 < v) :
    screenKeep th c = specScreenKeep th c := by
  unfold screenKeep specScreenKeep
  by_cases h1 : c.return_1y ≤ 0
  · rw [if_pos h1]
    simp [not_lt.mpr h1]
  · rw [if_neg h1]
    have h1p : 0 < c.return_1y := lt_of_not_le h1
    by_cases h2 : th.max_drawdown < maxDdOf c
    · rw [if_pos h2]
      simp [not_le.mpr h2]
    · rw [if_neg h2]
      have h2p : maxDdOf c ≤ th.max_drawdown := le_of_not_lt h2
      by_cases h3 : th.volatility < volOf c
      · rw [if_pos h3]
        simp [not_le.mpr h3]
      · rw [if_neg h3]
        have h3p : volOf c ≤ th.volatility := le_of_not_lt h3
        by_cases h4 : ratingOf c < th.min_rating
        · rw [if_pos h4]
          simp [not_le.mpr h4]
        · rw [if_neg h4]
          have h4p : th.min_rating ≤ ratingOf c := le_of_not_lt h4
          rcases hsz : c.size_value with _ | v
          · have hcond : ¬ (0 < sizeValOf c ∧ (sizeValOf c < 2 ∨ 500 < sizeValOf c)) := by
              unfold sizeValOf
              rw [hsz]
              norm_num
            rw [if_neg hcond]
            simp [h1p, h2p, h3p, h4p]
          · have hv : (0 : ℚ) < v := hpos v hsz
            have hsv : sizeValOf c = v := by
              unfold sizeValOf
              rw [hsz]
              rfl
            by_cases hband : v < 2 ∨ 500 < v
            · have hcond : 0 < sizeValOf c ∧ (sizeValOf c < 2 ∨ 500 < sizeValOf c) := by
                rw [hsv]
                exact ⟨hv, hband⟩
              rw [if_pos hcond]
              rcases hband with hlo | hhi
              · simp [not_le.mpr hlo]
              · simp [not_le.mpr hhi]
            · push_neg at hband
              have hcond : ¬ (0 < sizeValOf c ∧ (sizeValOf c < 2 ∨ 500 < sizeValOf c)) := by
                rw [hsv]
                rintro ⟨-, hout⟩
                rcases hout with hlo | hhi
                · exact absurd hband.1 (not_le.mpr hlo)
                · exact absurd hband.2 (not_le.mpr hhi)
              rw [if_neg hcond]
              simp [h1p, h2p, h3p, h4p, hband.1, hband.2]

theorem retDescBy_trans (a b c : Candidate) :
    retDescBy a b = true → retDescBy b c = true → retDescBy a c = true := by
  unfold retDescBy
  simp only [decide_eq_true_eq]
  intro hab hbc
  exact le_trans hbc hab

theorem retDescBy_total (a b : Candidate) :
    (retDescBy a b || retDescBy b a) = true := by
  unfold retDescBy
  rcases le_total a.return_1y b.return_1y with h | h <;> simp [h]

/-- C4: for every risk tier and candidate universe (with positive recorded
sizes), screening keeps exactly the candidates satisfying the claim's five
conditions — positive trailing 1-year return, drawdown and volatility at
most the tier tolerances, rating at least the tier minimum (aggressive
accepts unrated), size within the band with missing sizes passed through —
and the result is sorted descending by trailing 1-year return and truncated
to the fixed shortlist size 50. -/
theorem screen_funds_spec (rl : RiskLevel) (pool : List Candidate)
    (hpos : ∀ c ∈ pool, ∀ v, c.size_value = some v → 0 < v) :
    screen_funds rl pool
        = ((pool.filter (specScreenKeep (risk_thresholds rl))).mergeSort
            retDescBy).take 50
      ∧ (screen_funds rl pool).Pairwise
          (fun a b => b.return_1y ≤ a.return_1y)
      ∧ (screen_funds rl pool).length ≤ 50 := by
  refine ⟨?_, ?_, ?_⟩
  · unfold screen_funds
    rw [List.filter_congr (fun c hc => screenKeep_eq_spec (risk_thresholds rl) c (hpos c hc))]
  · have hsorted :
        ((pool.filter (screenKeep (risk_thresholds rl))).mergeSort
          retDescBy).Pairwise (fun a b => retDescBy a b = true) :=
      List.sorted_mergeSort retDescBy_trans retDescBy_total _
    have hsorted2 := hsorted.imp (fun h => by
      have := h
      unfold retDescBy at this
      exact of_decide_eq_true this)
    exact hsorted2.sublist (List.take_sublist _ _)
  · exact List.length_take_le _ _

/-- A concrete candidate kept by the steady tier: positive return, low
drawdown and volatility, 4-star 3-year rating, missing size data. -/
def candA : Candidate :=
  ⟨1, 5, some ⟨3, 2⟩, some ⟨0, 0, 4⟩, none⟩

theorem screen_funds_spec_witness :
    (screen_funds RiskLevel.steady [candA]).length ≤ 50 :=
  (screen_funds_spec RiskLevel.steady [candA]
    (by intro c hc v hv; simp [candA] at hc; rw [hc] at hv; simp [candA] at hv)).2.2

/-! Data resolution layer (FundDataService). A provider call is embedded as
an `Except Unit` value: `.error ()` is a raised exception, `.ok` a normal
return (possibly empty). The resolver functions are written in `Except` as
well so that "never raises to the caller" is the provable statement that the
result is always `.ok`. -/

/-- FundDataService.get_fund_ranking: try AKShare; only if it raises, and
only when JoinQuant credentials are configured, try JoinQuant; if that also
raises (or is not configured), return the empty list. An AKShare result is
returned as-is, without inspecting whether it is empty. -/
def get_fund_ranking {α : Type} (ak : Except Unit (List α)) (jqConfigured : Bool)
    (jq : Except Unit (List α)) : Except Unit (List α) :=
  match ak with
  | Except.ok ranking => Except.ok ranking
  | Except.error _ =>
    if jqConfigured then
      match jq with
      | Except.ok ranking => Except.ok ranking
      | Except.error _ => Except.ok []
    else Except.ok []

/-- FundDataService.get_fund_list: when use_cache is set and the fund_list
update log shows a fresh success, return the cached rows; otherwise try
AKShare (its result returned as-is), and on a raise return the empty list.
AKShare is the only provider for this dataset. -/
def get_fund_list {α : Type} (use_cache cacheFresh : Bool) (cachedRows : List α)
    (ak : Except Unit (List α)) : Except Unit (List α) :=
  if use_cache && cacheFresh then Except.ok cachedRows
  else
    match ak with
    | Except.ok fundList => Except.ok fundList
    | Except.error _ => Except.ok []

/-- Modelled from the spec sentence of the claim, for comparison with the
source functions: a provider call that raises or returns an empty result is
treated as failed and the next provider in priority order is tried; if all
fail, the result is the empty collection. -/
def specResolveChain {α : Type} : List (Except Unit (List α)) → List α
  | [] => []
  | p :: rest =>
    match p with
    | Except.ok l => if l.isEmpty then specResolveChain rest else l
    | Except.error _ => specResolveChain rest

/-- C5 counterexample: when AKShare returns an empty (falsy) ranking and the
configured next provider has data, the source returns the empty ranking
without trying the next provider, while the claim's resolver would have
returned the next provider's data. -/
theorem ranking_empty_not_treated_as_failure :
    get_fund_ranking (Except.ok ([] : List Nat)) true (Except.ok [1])
        = Except.ok []
      ∧ specResolveChain [Except.ok ([] : List Nat), Except.ok [1]] = [1]
      ∧ ([1] : List Nat) ≠ [] :=
  ⟨rfl, rfl, by decide⟩

/-- C5 amended: for bulk datasets a provider call that raises is treated as
failed and the resolver moves to the next configured provider; a call that
returns normally has its result returned as-is even when empty; if every
provider raises or is unavailable the resolver returns the empty collection;
and the resolver itself never raises. -/
theorem bulk_resolver_fallback_spec {α : Type} (ak jq : Except Unit (List α))
    (jqConfigured : Bool) (use_cache cacheFresh : Bool) (cachedRows : List α) :
    (∃ l, get_fund_ranking ak jqConfigured jq = Except.ok l)
    ∧ (∀ l, ak = Except.ok l → get_fund_ranking ak jqConfigured jq = Except.ok l)
    ∧ (ak = Except.error () → jqConfigured = true →
        ∀ l, jq = Except.ok l → get_fund_ranking ak jqConfigured jq = Except.ok l)
    ∧ (ak = Except.error () → (jqConfigured = false ∨ jq = Except.error ()) →
        get_fund_ranking ak jqConfigured jq = Except.ok [])
    ∧ (∃ l, get_fund_list use_cache cacheFresh cachedRows ak = Except.ok l)
    ∧ (ak = Except.error () → (use_cache && cacheFresh) = false →
        get_fund_list use_cache cacheFresh cachedRows ak = Except.ok []) := by
  refine ⟨?_, ?_, ?_, ?_, ?_, ?_⟩
  · unfold get_fund_ranking
    rcases ak with _ | l
    · rcases hj : jqConfigured
      · exact ⟨[], by simp⟩
      · rcases jq with _ | l2
        · exact ⟨[], by simp⟩
        · exact ⟨l2, by simp⟩
    · exact ⟨l, rfl⟩
  · intro l hak
    rw [hak]
    rfl
  · intro hak hcfg l hjq
    rw [hak, hcfg, hjq]
    simp [get_fund_ranking]
  · intro hak hrest
    rw [hak]
    rcases hrest with hcfg | hjq
    · rw [hcfg]
      rfl
    · rcases hcfg : jqConfigured
      · simp [get_fund_ranking]
      · rw [hjq]
        simp [get_fund_ranking]
  · unfold get_fund_list
    rcases hc : (use_cache && cacheFresh)
    · simp only [Bool.false_eq_true, if_false]
      rcases ak with _ | l
      · exact ⟨[], rfl⟩
      · exact ⟨l, rfl⟩
    · exact ⟨cachedRows, by simp⟩
  · intro hak hc
    rw [hak]
    unfold get_fund_list
    rw [hc]
    rfl

theorem bulk_resolver_fallback_spec_witness :
    get_fund_ranking (Except.error ()) true (Except.ok [(2 : Nat)])
      = Except.ok [2] :=
  (bulk_resolver_fallback_spec (Except.error ()) (Except.ok [(2 : Nat)])
    true false false []).2.2.1 rfl rfl [2] rfl

/-! Point queries with cache staleness (FundDataService.get_fund_nav and
get_fund_basic_info). Dates are embedded as integer day numbers; the
`nav_date` string of a cached valuation row either is empty, fails to parse,
or denotes a day. The second component of each result records whether any
provider was invoked during the query. -/

/-- The nav_date field of a cached valuation row. -/
inductive NavDate
  | empty
  | malformed
  | onDay (d : ℤ)
deriving DecidableEq

/-- A cached valuation row. -/
structure NavRec where
  nav_date : NavDate
  unit_nav : ℚ
deriving DecidableEq

/-- Sina fallback and final cache fallback of get_fund_nav. -/
def navSinaFallback (cached : Option NavRec)
    (sina : Except Unit (Option NavRec)) : Option NavRec × Bool :=
  match sina with
  | Except.ok (some nav) => (some nav, true)
  | Except.ok none => (cached, true)
  | Except.error _ => (cached, true)

/-- FundDataService.get_fund_nav: with use_cache, a cached row is served
without any provider call when its nav_date parses to a day at most 1 day
old (a malformed date is also served; an empty date is not); otherwise the
AKShare history is fetched (its first row served when nonempty), then the
Sina single quote, then the stale cache row. -/
def get_fund_nav (use_cache : Bool) (cached : Option NavRec) (today : ℤ)
    (ak : Except Unit (List NavRec)) (sina : Except Unit (Option NavRec)) :
    Option NavRec × Bool :=
  let fromCache : Option NavRec :=
    if use_cache then
      match cached with
      | some latest =>
        match latest.nav_date with
        | NavDate.empty => none
        | NavDate.malformed => some latest
        | NavDate.onDay d => if today - d ≤ 1 then some latest else none
      | none => none
    else none
  match fromCache with
  | some r => (some r, false)
  | none =>
    match ak with
    | Except.ok (rec :: _) => (some rec, true)
    | Except.ok [] => navSinaFallback cached sina
    | Except.error _ => navSinaFallback cached sina

/-- A cached fund_basic row; ageDays is the age of its last-write timestamp,
carried only so staleness statements can be made about it (the source never
reads it on this path). -/
structure BasicRec where
  ageDays : ℤ
  payload : Nat
deriving DecidableEq

/-- FundDataService.get_fund_basic_info: any cached row is returned directly;
only on a cache miss is AKShare consulted. No staleness check is applied to
the cached row. -/
def get_fund_basic_info (cached : Option BasicRec)
    (ak : Except Unit (Option BasicRec)) : Option BasicRec × Bool :=
  match cached with
  | some basic => (some basic, false)
  | none =>
    match ak with
    | Except.ok (some info) => (some info, true)
    | Except.ok none => (none, true)
    | Except.error _ => (none, true)

/-- A basic-info row written 30 days ago. -/
def staleBasic : BasicRec :=
  ⟨30, 7⟩

/-- C6 counterexample: a cached basic-info record written 30 days ago — far
outside the claimed 7-day staleness window — is still served from the cache
without invoking any provider, so a cached basic-info record is not "served
only if written within the last 7 days". -/
theorem basic_info_served_despite_staleness :
    get_fund_basic_info (some staleBasic) (Except.error ())
        = (some staleBasic, false)
      ∧ 7 < staleBasic.ageDays :=
  ⟨rfl, by decide⟩

/-- C6 amended: the valuation point query serves a cached row dated today
without invoking any provider and fetches from providers when the cached row
is 2 days old; the basic-info point query serves any cached row
unconditionally, with no 7-day staleness window. -/
theorem point_query_cache_staleness (r : NavRec) (today : ℤ)
    (ak : Except Unit (List NavRec)) (sina : Except Unit (Option NavRec))
    (b : BasicRec) (akb : Except Unit (Option BasicRec)) :
    (r.nav_date = NavDate.onDay today →
      get_fund_nav true (some r) today ak sina = (some r, false))
    ∧ (r.nav_date = NavDate.onDay (today - 2) →
        (get_fund_nav true (some r) today ak sina).2 = true)
    ∧ get_fund_basic_info (some b) akb = (some b, false) := by
  refine ⟨?_, ?_, rfl⟩
  · intro hd
    have h1 : today - today ≤ 1 := by omega
    simp [get_fund_nav, hd, h1]
  · intro hd
    have hnot : ¬ (today - (today - 2) ≤ 1) := by omega
    rcases ak with _ | hist
    · rcases sina with _ | onav
      · simp [get_fund_nav, hd, hnot, navSinaFallback]
      · rcases onav with _ | nav <;>
          simp [get_fund_nav, hd, hnot, navSinaFallback]
    · rcases hist with _ | ⟨rec, rest⟩
      · rcases sina with _ | onav
        · simp [get_fund_nav, hd, hnot, navSinaFallback]
        · rcases onav with _ | nav <;>
            simp [get_fund_nav, hd, hnot, navSinaFallback]
      · simp [get_fund_nav, hd, hnot, navSinaFallback]

/-- A valuation row dated day 0. -/
def navToday : NavRec :=
  ⟨NavDate.onDay 0, 1⟩

theorem point_query_cache_staleness_witness :
    get_fund_nav true (some navToday) 0 (Except.error ()) (Except.error ())
      = (some navToday, false) :=
  (point_query_cache_staleness navToday 0 (Except.error ()) (Except.error ())
    staleBasic (Except.error ())).1 rfl

/-! Cache writes (CacheDB). Tables are embedded as row lists; INSERT OR
REPLACE removes the rows conflicting on the table's uniqueness constraint
and appends the new row, while a plain INSERT only appends. Payload columns
are collapsed into a single field; `now` stands for the write timestamp. -/

/-- A fund_basic row (fund_code is the primary key). -/
structure BasicRow where
  fund_code : Nat
  payload : Nat
  updated_at : ℤ
deriving DecidableEq

/-- CacheDB.save_fund_basic: INSERT OR REPLACE keyed on fund_code. -/
def save_fund_basic (tbl : List BasicRow) (code payload : Nat) (now : ℤ) :
    List BasicRow :=
  tbl.filter (fun r => r.fund_code ≠ code) ++ [⟨code, payload, now⟩]

/-- A fund_nav row (UNIQUE(fund_code, nav_date)). -/
structure NavRow where
  fund_code : Nat
  nav_date : Nat
  payload : Nat
  created_at : ℤ
deriving DecidableEq

/-- CacheDB.save_fund_nav: INSERT OR REPLACE keyed on (fund_code, nav_date). -/
def save_fund_nav (tbl : List NavRow) (code date payload : Nat) (now : ℤ) :
    List NavRow :=
  tbl.filter (fun r => ¬(r.fund_code = code ∧ r.nav_date = date))
    ++ [⟨code, date, payload, now⟩]

/-- A fund_rating row (autoincrement id, no uniqueness constraint). -/
structure RatingRow where
  fund_code : Nat
  rating_date : Nat
  rating_agency : Nat
  payload : Nat
  created_at : ℤ
deriving DecidableEq

/-- CacheDB.save_fund_rating: a plain INSERT that appends a row. -/
def save_fund_rating (tbl : List RatingRow) (code date agency payload : Nat)
    (now : ℤ) : List RatingRow :=
  tbl ++ [⟨code, date, agency, payload, now⟩]

/-- Rows of a fund_basic table holding a given key. -/
def basicRowsFor (tbl : List BasicRow) (code : Nat) : List BasicRow :=
  tbl.filter (fun r => r.fund_code = code)

/-- Rows of a fund_nav table holding a given key. -/
def navRowsFor (tbl : List NavRow) (code date : Nat) : List NavRow :=
  tbl.filter (fun r => r.fund_code = code ∧ r.nav_date = date)

/-- Rows of a fund_rating table holding a given key. -/
def ratingRowsFor (tbl : List RatingRow) (code date agency : Nat) : List RatingRow :=
  tbl.filter (fun r => r.fund_code = code ∧ r.rating_date = date ∧ r.rating_agency = agency)

/-- C8 counterexample: two rating writes under the same
(instrument, date, agency) key leave two entries for that key — the second
write appends rather than replacing, so the prior payload survives. -/
theorem rating_write_duplicates_key :
    ratingRowsFor
        (save_fund_rating (save_fund_rating [] 1 10 2 5 0) 1 10 2 6 1) 1 10 2
      = [⟨1, 10, 2, 5, 0⟩, ⟨1, 10, 2, 6, 1⟩] := by
  decide

/-- C8 amended: basic-info and valuation writes are last-writer-wins — after
the write exactly the freshly written row exists for the key and rows under
other keys are untouched — while a rating write appends a new row, leaving
every prior row for the same key in place. -/
theorem cache_write_semantics (tbl : List BasicRow) (tbln : List NavRow)
    (tblr : List RatingRow) (code payload : Nat) (now : ℤ)
    (date agency : Nat) :
    basicRowsFor (save_fund_basic tbl code payload now) code = [⟨code, payload, now⟩]
    ∧ (∀ c, c ≠ code →
        basicRowsFor (save_fund_basic tbl code payload now) c = basicRowsFor tbl c)
    ∧ navRowsFor (save_fund_nav tbln code date payload now) code date
        = [⟨code, date, payload, now⟩]
    ∧ ratingRowsFor (save_fund_rating tblr code date agency payload now) code date agency
        = ratingRowsFor tblr code date agency ++ [⟨code, date, agency, payload, now⟩] := by
  refine ⟨?_, ?_, ?_, ?_⟩
  · unfold basicRowsFor save_fund_basic
    rw [List.filter_append]
    have h1 : (tbl.filter (fun r => r.fund_code ≠ code)).filter
        (fun r => decide (r.fund_code = code)) = [] := by
      rw [List.filter_filter]
      apply List.filter_eq_nil_iff.mpr
      intro r hr
      simp
    rw [h1]
    simp
  · intro c hc
    unfold basicRowsFor save_fund_basic
    rw [List.filter_append, List.filter_filter]
    have h2 : (List.filter (fun r => decide (r.fund_code = c) && decide (r.fund_code ≠ code)) tbl)
        = tbl.filter (fun r => r.fund_code = c) := by
      apply List.filter_congr
      intro r hr
      by_cases h : r.fund_code = c
      · simp [h, hc]
      · simp [h]
    rw [h2]
    have h3 : List.filter (fun r => decide (r.fund_code = c)) [(⟨code, payload, now⟩ : BasicRow)] = [] := by
      simp [Ne.symm hc]
    rw [h3, List.append_nil]
  · unfold navRowsFor save_fund_nav
    rw [List.filter_append, List.filter_filter]
    have h1 : (List.filter
        (fun r => decide (r.fund_code = code ∧ r.nav_date = date) &&
          decide (¬(r.fund_code = code ∧ r.nav_date = date))) tbln) = [] := by
      apply List.filter_eq_nil_iff.mpr
      intro r hr
      by_cases h : r.fund_code = code ∧ r.nav_date = date <;> simp [h]
    rw [h1]
    simp
  · unfold ratingRowsFor save_fund_rating
    rw [List.filter_append]
    simp

theorem cache_write_semantics_witness :
    basicRowsFor (save_fund_basic [] 3 4 0) 5 = basicRowsFor [] 5 :=
  (cache_write_semantics [] [] [] 3 4 0 0 0).2.1 5 (by decide)

/-! Profile intake (RequirementAgent._extract_profile). The completion
response is embedded by its keyword-extraction results: the 万-denominated
figures found by the amount regex and the presence flags of each keyword
group the source tests with substring matching. -/

/-- Investment horizon categories 短期 / 中期 / 长期. -/
inductive Period
  | short
  | medium
  | long
deriving DecidableEq

/-- Investment goal categories 稳健 / 进取. -/
inductive Goal
  | steady
  | aggressiveGrowth
deriving DecidableEq

/-- Investment experience categories 新手 / 有经验 / 资深. -/
inductive Exper
  | novice
  | seasoned
  | veteran
deriving DecidableEq

/-- The incrementally built user profile; a `none` field is one the source
dict does not contain yet. -/
structure UserProfile where
  investment_amount : Option ℚ
  investment_period : Option Period
  investment_goal : Option Goal
  experience : Option Exper
deriving DecidableEq

def UserProfile.empty : UserProfile :=
  ⟨none, none, none, none⟩

/-- Keyword-extraction results of a completion response: the figures matched
by the amount regex (empty when 万 is absent or nothing matches) and the
keyword-group presence flags. -/
structure TextFeatures where
  amountsWan : List ℚ
  hasShortKw : Bool
  hasMidKw : Bool
  hasLongKw : Bool
  hasSteadyKw : Bool
  hasAggrKw : Bool
  hasNoviceKw : Bool
  hasSomeExpKw : Bool
  hasRichExpKw : Bool
deriving DecidableEq

/-- RequirementAgent._extract_profile: amount from the last regex match
(×10000), period and experience from the first matching keyword group, and
goal from its keyword groups with an unconditional 稳健 default in the else
branch. -/
def extract_profile (t : TextFeatures) (p : UserProfile) : UserProfile :=
  let p1 :=
    match t.amountsWan.getLast? with
    | some a => { p with investment_amount := some (a * 10000) }
    | none => p
  let p2 :=
    if t.hasShortKw then { p1 with investment_period := some Period.short }
    else if t.hasMidKw then { p1 with investment_period := some Period.medium }
    else if t.hasLongKw then { p1 with investment_period := some Period.long }
    else p1
  let p3 :=
    if t.hasSteadyKw then { p2 with investment_goal := some Goal.steady }
    else if t.hasAggrKw then { p2 with investment_goal := some Goal.aggressiveGrowth }
    else { p2 with investment_goal := some Goal.steady }
  if t.hasNoviceKw then { p3 with experience := some Exper.novice }
  else if t.hasSomeExpKw then { p3 with experience := some Exper.seasoned }
  else if t.hasRichExpKw then { p3 with experience := some Exper.veteran }
  else p3

/-- A completion response from which nothing is parseable. -/
def blankFeatures : TextFeatures :=
  ⟨[], false, false, false, false, false, false, false, false⟩

/-- C7 counterexample: on text with no parseable value for any field, the
amount, period and experience fields are left unset, but the goal field is
not left unset — the else branch assigns the 稳健 (steady) default, so the
claim fails for the goal field. -/
theorem goal_field_defaulted_not_unset :
    (extract_profile blankFeatures UserProfile.empty).investment_amount = none
    ∧ (extract_profile blankFeatures UserProfile.empty).investment_period = none
    ∧ (extract_profile blankFeatures UserProfile.empty).experience = none
    ∧ (extract_profile blankFeatures UserProfile.empty).investment_goal
        = some Goal.steady := by
  refine ⟨rfl, rfl, rfl, rfl⟩

/-- C7 amended: when a field's text yields no parseable value, the amount,
period and experience fields are silently left unchanged; the goal field is
instead assigned the 稳健 (steady) default whenever neither goal keyword
group matches. -/
theorem extract_profile_unparseable_fields (t : TextFeatures) (p : UserProfile) :
    (t.amountsWan = [] →
      (extract_profile t p).investment_amount = p.investment_amount)
    ∧ (t.hasShortKw = false → t.hasMidKw = false → t.hasLongKw = false →
        (extract_profile t p).investment_period = p.investment_period)
    ∧ (t.hasNoviceKw = false → t.hasSomeExpKw = false → t.hasRichExpKw = false →
        (extract_profile t p).experience = p.experience)
    ∧ (t.hasSteadyKw = false → t.hasAggrKw = false →
        (extract_profile t p).investment_goal = some Goal.steady) := by
  obtain ⟨am, k1, k2, k3, g1, g2, x1, x2, x3⟩ := t
  refine ⟨?_, ?_, ?_, ?_⟩
  · intro h
    simp only at h
    subst h
    rcases k1 <;> rcases k2 <;> rcases k3 <;> rcases g1 <;> rcases g2 <;>
      rcases x1 <;> rcases x2 <;> rcases x3 <;> rfl
  · intro h1 h2 h3
    simp only at h1 h2 h3
    subst h1
    subst h2
    subst h3
    rcases ham : am.getLast? with _ | a <;> rcases g1 <;> rcases g2 <;>
      rcases x1 <;> rcases x2 <;> rcases x3 <;>
        simp only [extract_profile, ham] <;> rfl
  · intro h1 h2 h3
    simp only at h1 h2 h3
    subst h1
    subst h2
    subst h3
    rcases ham : am.getLast? with _ | a <;> rcases k1 <;> rcases k2 <;>
      rcases k3 <;> rcases g1 <;> rcases g2 <;>
        simp only [extract_profile, ham] <;> rfl
  · intro h1 h2
    simp only at h1 h2
    subst h1
    subst h2
    rcases ham : am.getLast? with _ | a <;> rcases k1 <;> rcases k2 <;>
      rcases k3 <;> rcases x1 <;> rcases x2 <;> rcases x3 <;>
        simp only [extract_profile, ham] <;> rfl

theorem extract_profile_unparseable_fields_witness :
    (extract_profile blankFeatures UserProfile.empty).investment_amount
      = UserProfile.empty.investment_amount :=
  (extract_profile_unparseable_fields blankFeatures UserProfile.empty).1 rfl

/-! Conversation orchestrator (GroupChatManager). Calls to the opaque text
generator are driven by per-turn environment records: each LLM call is
embedded as an `Except Unit` outcome (a raise or a response), and a response
is embedded by the features the source extracts from it (completion marker
presence, extraction results). Conversation-history entries are abstracted
to numbers (their content never influences control flow in the model);
assistant replies are recorded as 0. -/

/-- The five stage constants of GroupChatManager. The validation constant is
declared in the source but never assigned. -/
inductive Stage
  | requirement
  | risk
  | recommendation
  | validation
  | complete
deriving DecidableEq

/-- RequirementAgent state. -/
structure ReqState where
  history : List Nat
  profile : UserProfile
  is_complete : Bool
deriving DecidableEq

def ReqState.init : ReqState :=
  ⟨[], UserProfile.empty, false⟩

/-- RiskAgent state ("" risk level embedded as `none`). -/
structure RiskState where
  history : List Nat
  risk_level : Option RiskLevel
  risk_score : Nat
  is_complete : Bool
deriving DecidableEq

def RiskState.init : RiskState :=
  ⟨[], none, 0, false⟩

/-- A recommendation text: a generator output with its extracted features,
or one of the fixed sentinel strings the source returns instead. -/
inductive RecText
  | gen (d : RecDoc)
  | noLlm
  | noFunds
  | genFailed
deriving DecidableEq

/-- A recommendation doc with nothing extractable, the features of each
sentinel string (they contain no tags, allocations or tier keywords). -/
def blankRecDoc : RecDoc :=
  ⟨0, 0, 0, 0, 0, 0, 0, 0, false, false, false, false, false, false,
    [], [], [], false, false, false, false, false, none⟩

/-- Features of a recommendation text, as seen by the critic. -/
def featuresOf : RecText → RecDoc
  | RecText.gen d => d
  | _ => blankRecDoc

/-- FundExpertAgent state ("" recommendation embedded as `none`). -/
structure ExpertState where
  user_profile : UserProfile
  risk_level : Option RiskLevel
  screened_funds : List Candidate
  recommendation : Option RecText
deriving DecidableEq

def ExpertState.init : ExpertState :=
  ⟨UserProfile.empty, none, [], none⟩

/-- CriticAgent state: the validation history accumulated by validate. -/
structure CriticState where
  validation_history : List ValidationResult
deriving DecidableEq

def CriticState.init : CriticState :=
  ⟨[]⟩

/-- The whole GroupChatManager state. -/
structure ManagerState where
  current_stage : Stage
  conversation_history : List Nat
  last_validation_result : Option ValidationResult
  req : ReqState
  risk : RiskState
  expert : ExpertState
  critic : CriticState
deriving DecidableEq

def ManagerState.init : ManagerState :=
  ⟨Stage.requirement, [], none, ReqState.init, RiskState.init,
    ExpertState.init, CriticState.init⟩

/-- GroupChatManager.reset: restores the initial stage and empty history and
resets the requirement, risk and fund-expert agents. It does not touch
last_validation_result, and CriticAgent has no reset, so its validation
history also survives. -/
def GroupChatManager.reset (s : ManagerState) : ManagerState :=
  { s with
    current_stage := Stage.requirement
    conversation_history := []
    req := ReqState.init
    risk := RiskState.init
    expert := ExpertState.init }

/-- GroupChatManager.is_complete. -/
def GroupChatManager.is_complete (s : ManagerState) : Bool :=
  decide (s.current_stage = Stage.complete)

/-- One LLM exchange of RequirementAgent.process: whether the call raises,
whether the response carries the 【需求收集完成】 marker, and the extraction
features of the response. -/
structure ReqTurn where
  raises : Bool
  completes : Bool
  feats : TextFeatures
deriving DecidableEq

/-- RequirementAgent.process: without an LLM client, return a sentinel with
no state change; otherwise append the user message, and unless the call
raises, handle the completion marker and append the reply. -/
def reqProcess (llm : Bool) (t : ReqTurn) (u : Nat) (s : ReqState) : ReqState :=
  if ¬ llm then s
  else if t.raises then { s with history := s.history ++ [u] }
  else
    let s1 : ReqState := { s with history := s.history ++ [u] }
    let s2 : ReqState :=
      if t.completes then
        { s1 with is_complete := true, profile := extract_profile t.feats s1.profile }
      else s1
    { s2 with history := s2.history ++ [0] }

/-- One LLM exchange of RiskAgent.process: raise flag, completion-marker
flag, and which tier name (if any) the response mentions first. -/
structure RiskTurn where
  raises : Bool
  completes : Bool
  mentioned : Option RiskLevel
deriving DecidableEq

/-- RiskAgent._extract_risk_level: first tier name found in the response,
defaulting to 稳健型 with score 50. -/
def extract_risk_level (m : Option RiskLevel) : RiskLevel × Nat :=
  match m with
  | some RiskLevel.conservative => (RiskLevel.conservative, 20)
  | some RiskLevel.steady => (RiskLevel.steady, 50)
  | some RiskLevel.active => (RiskLevel.active, 75)
  | some RiskLevel.aggressive => (RiskLevel.aggressive, 90)
  | _ => (RiskLevel.steady, 50)

/-- RiskAgent.process, analogous to reqProcess. -/
def riskProcess (llm : Bool) (t : RiskTurn) (u : Nat) (s : RiskState) : RiskState :=
  if ¬ llm then s
  else if t.raises then { s with history := s.history ++ [u] }
  else
    let s1 : RiskState := { s with history := s.history ++ [u] }
    let s2 : RiskState :=
      if t.completes then
        let lv := extract_risk_level t.mentioned
        { s1 with is_complete := true, risk_level := some lv.1, risk_score := lv.2 }
      else s1
    { s2 with history := s2.history ++ [0] }

/-- RiskAgent.get_risk_level as the critic and expert consume it: the set
tier, or the unknown level for the initial "" value. -/
def managerRiskLevel (s : ManagerState) : RiskLevel :=
  s.risk.risk_level.getD RiskLevel.other

/-- CriticAgent.validate as called from the manager: produces the result,
appends it to the critic's validation history, and the manager stores it as
last_validation_result. -/
def criticValidate (d : RecDoc) (rl : RiskLevel) (s : ManagerState) :
    ValidationResult × ManagerState :=
  let v := validate d rl
  (v, { s with
    critic := ⟨s.critic.validation_history ++ [v]⟩
    last_validation_result := some v })

/-- Generator outcomes available to one recommendation cycle: the initial
generation attempt and the single regeneration attempt the code can make.
-/
structure GenEnv where
  attempt1 : Except Unit RecDoc
  attempt2 : Except Unit RecDoc

/-- The reply of the recommendation cycle: the text with its 【验证通过】
score note, the text with the 【验证警告】 score-and-feedback note, or one
of the error sentinels. -/
inductive GvReply
  | accepted (t : RecText) (score : Int)
  | warned (t : RecText) (score : Int) (fb : List Issue)
  | noLlmSentinel
  | regenFailedMsg
deriving DecidableEq

/-- FundExpertAgent.generate_recommendation: sentinel without LLM client or
with an empty shortlist (no generator call); otherwise one generator call
whose success is stored as the agent's recommendation. The third component
counts generator invocations. -/
def generate_recommendation (llm : Bool) (out : Except Unit RecDoc)
    (s : ManagerState) : RecText × ManagerState × Nat :=
  if ¬ llm then (RecText.noLlm, s, 0)
  else if s.expert.screened_funds.isEmpty then (RecText.noFunds, s, 0)
  else
    match out with
    | Except.ok d =>
      (RecText.gen d,
        { s with expert := { s.expert with recommendation := some (RecText.gen d) } }, 1)
    | Except.error _ => (RecText.genFailed, s, 1)

set_option linter.unusedVariables false in
/-- GroupChatManager._regenerate_with_feedback: one generator call, one
validation, and a reply that surfaces the score (plus the feedback when the
result still fails). The retry_count parameter is received but never used
to regenerate again, exactly as in the source. -/
def regenerate_with_feedback (llm : Bool) (g : GenEnv) (retry_count : Nat)
    (s : ManagerState) : GvReply × ManagerState × Nat :=
  if ¬ llm then (GvReply.noLlmSentinel, s, 0)
  else
    match g.attempt2 with
    | Except.error _ => (GvReply.regenFailedMsg, s, 1)
    | Except.ok d =>
      let s1 := { s with expert := { s.expert with recommendation := some (RecText.gen d) } }
      let vs := criticValidate d (managerRiskLevel s1) s1
      (if vs.1.passed then GvReply.accepted (RecText.gen d) vs.1.score
        else GvReply.warned (RecText.gen d) vs.1.score vs.1.feedback,
        vs.2, 1)

/-- GroupChatManager._generate_and_validate_recommendation: generate, then
validate; on failure with retry_count < 2, hand off to
_regenerate_with_feedback with retry_count + 1; otherwise return the text
with its score. The third component counts generator invocations. -/
def generate_and_validate (llm : Bool) (g : GenEnv) (retry_count : Nat)
    (s : ManagerState) : GvReply × ManagerState × Nat :=
  let r1 := generate_recommendation llm g.attempt1 s
  let vs := criticValidate (featuresOf r1.1) (managerRiskLevel r1.2.1) r1.2.1
  if ¬ vs.1.passed ∧ retry_count < 2 then
    let r2 := regenerate_with_feedback llm g (retry_count + 1) vs.2
    (r2.1, r2.2.1, r1.2.2 + r2.2.2)
  else
    (GvReply.accepted r1.1 vs.1.score, vs.2, r1.2.2)

/-- The environment of one GroupChatManager.process call: the utterance,
the restart-keyword test of the complete handler, the LLM exchanges each
handler may perform, and the screening inputs. -/
structure TurnEnv where
  utterance : Nat
  restartKw : Bool
  reqT : ReqTurn
  riskGreetT : RiskTurn
  riskT : RiskTurn
  screenRaises : Bool
  screenPool : List Candidate
  gen : GenEnv

/-- GroupChatManager.process: append the utterance, dispatch on the current
stage (requirement and risk handlers may complete and advance the stage; the
risk handler then screens funds and runs the recommendation cycle; the
complete handler resets on a restart keyword), then append the reply. -/
def processM (llm : Bool) (e : TurnEnv) (s : ManagerState) : ManagerState :=
  let s0 := { s with conversation_history := s.conversation_history ++ [e.utterance] }
  let s1 :=
    match s0.current_stage with
    | Stage.requirement =>
      let r := reqProcess llm e.reqT e.utterance s0.req
      let sa := { s0 with req := r }
      if r.is_complete then
        let sb := { sa with current_stage := Stage.risk }
        { sb with risk := riskProcess llm e.riskGreetT 0 sb.risk }
      else sa
    | Stage.risk =>
      let r := riskProcess llm e.riskT e.utterance s0.risk
      let sa := { s0 with risk := r }
      if r.is_complete then
        let sb := { sa with current_stage := Stage.recommendation }
        let lvl := r.risk_level.getD RiskLevel.other
        let screened := if e.screenRaises then [] else screen_funds lvl e.screenPool
        let sc := { sb with expert := { sb.expert with
          user_profile := sb.req.profile
          risk_level := some lvl
          screened_funds := screened } }
        (generate_and_validate llm e.gen 0 sc).2.1
      else sa
    | Stage.recommendation => s0
    | Stage.validation => s0
    | Stage.complete => if e.restartKw then GroupChatManager.reset s0 else s0
  { s1 with conversation_history := s1.conversation_history ++ [0] }

/-- States reachable from the initial state through any sequence of
process(utterance) and reset() calls. -/
inductive Reachable : ManagerState → Prop
  | init : Reachable ManagerState.init
  | step (llm : Bool) (e : TurnEnv) {s : ManagerState} :
      Reachable s → Reachable (processM llm e s)
  | usrReset {s : ManagerState} :
      Reachable s → Reachable (GroupChatManager.reset s)

/-- Generator outcomes whose every attempt is the unextractable text. -/
def failGenEnv : GenEnv :=
  ⟨Except.ok blankRecDoc, Except.ok blankRecDoc⟩

/-- A state at the point where the recommendation cycle starts: risk
assessment completed at the steady tier, one screened candidate. -/
def readyState : ManagerState :=
  { ManagerState.init with
    risk := { RiskState.init with
      risk_level := some RiskLevel.steady
      risk_score := 50
      is_complete := true }
    expert := { ExpertState.init with
      risk_level := some RiskLevel.steady
      screened_funds := [candA] } }

/-- C1, the code evaluated at the failing input: with the LLM configured, a
nonempty shortlist, and a generator whose output fails validation on every
attempt (score 25 < 60), the recommendation cycle invokes the generator
exactly 2 times (the initial attempt plus one regeneration) and terminates,
returning the still-failing second attempt with its score and itemized
feedback surfaced; no third attempt occurs, because
_regenerate_with_feedback never uses its retry_count to regenerate again. -/
theorem regeneration_stops_after_two_generator_calls :
    (generate_and_validate true failGenEnv 0 readyState).2.2 = 2
    ∧ (generate_and_validate true failGenEnv 0 readyState).1
        = GvReply.warned (RecText.gen blankRecDoc) 25
            [Issue.missingFundTag 0, Issue.missingFundTag 1, Issue.missingFundTag 2,
              Issue.missingFundTag 3, Issue.missingFundTag 4, Issue.missingFundTag 5,
              Issue.noAllocations, Issue.noRiskWarning, Issue.missingDisclaimer]
    ∧ (validate blankRecDoc RiskLevel.steady).passed = false := by
  refine ⟨rfl, rfl, rfl⟩

/-- A validation result as retained by the manager and the critic. -/
def passResult : ValidationResult :=
  ⟨true, [], 100⟩

/-- A reachable-shaped state in which the critic holds validation history
and the manager holds a last validation result. -/
def historiedState : ManagerState :=
  { ManagerState.init with
    critic := ⟨[passResult]⟩
    last_validation_result := some passResult }

/-- C9 counterexample: reset() does not clear all sub-agent state — the
critic agent's validation history (and the manager's last validation
result) survive a reset, so the state after reset() is not the fully
cleared initial configuration the claim describes. -/
theorem reset_does_not_clear_critic_state :
    (GroupChatManager.reset historiedState).critic.validation_history = [passResult]
    ∧ [passResult] ≠ ([] : List ValidationResult)
    ∧ (GroupChatManager.reset historiedState).last_validation_result = some passResult := by
  refine ⟨rfl, by decide, rfl⟩

/-- C9 amended: from any state, reset() restores the initial stage and empty
conversation history and resets the requirement, risk and fund-expert
agents to their initial state, while retaining the critic's validation
history and the manager's last validation result; reset is idempotent. -/
theorem reset_spec (s : ManagerState) :
    (GroupChatManager.reset s).current_stage = Stage.requirement
    ∧ (GroupChatManager.reset s).conversation_history = []
    ∧ (GroupChatManager.reset s).req = ReqState.init
    ∧ (GroupChatManager.reset s).risk = RiskState.init
    ∧ (GroupChatManager.reset s).expert = ExpertState.init
    ∧ (GroupChatManager.reset s).critic = s.critic
    ∧ (GroupChatManager.reset s).last_validation_result = s.last_validation_result
    ∧ GroupChatManager.reset (GroupChatManager.reset s) = GroupChatManager.reset s := by
  refine ⟨rfl, rfl, rfl, rfl, rfl, rfl, rfl, rfl⟩

theorem criticValidate_stage (d : RecDoc) (rl : RiskLevel) (s : ManagerState) :
    (criticValidate d rl s).2.current_stage = s.current_stage := rfl

theorem generate_recommendation_stage (llm : Bool) (out : Except Unit RecDoc)
    (s : ManagerState) :
    (generate_recommendation llm out s).2.1.current_stage = s.current_stage := by
  rcases out with e | d <;> unfold generate_recommendation <;> split_ifs <;> rfl

theorem regenerate_stage (llm : Bool) (g : GenEnv) (rc : Nat) (s : ManagerState) :
    (regenerate_with_feedback llm g rc s).2.1.current_stage = s.current_stage := by
  obtain ⟨a1, a2⟩ := g
  rcases llm <;> rcases a2 with e | d <;> rfl

theorem generate_and_validate_stage (llm : Bool) (g : GenEnv) (rc : Nat)
    (s : ManagerState) :
    (generate_and_validate llm g rc s).2.1.current_stage = s.current_stage := by
  simp only [generate_and_validate]
  split_ifs with h
  · rw [regenerate_stage, criticValidate_stage, generate_recommendation_stage]
  · rw [criticValidate_stage, generate_recommendation_stage]

theorem processM_stage (llm : Bool) (e : TurnEnv) (s : ManagerState)
    (h : s.current_stage ≠ Stage.complete) :
    (processM llm e s).current_stage ≠ Stage.complete := by
  rcases hst : s.current_stage with _ | _ | _ | _ | _
  · simp only [processM, hst]
    split_ifs <;> simp
  · simp only [processM, hst]
    split_ifs <;>
      first
        | (rw [generate_and_validate_stage]; simp)
        | simp
  · simp [processM, hst]
  · simp [processM, hst]
  · exact absurd hst h

/-- C10: in every state reachable from the initial state by any sequence of
process and reset calls, the current stage is never the complete stage, so
is_complete() always returns false (and the complete-stage handler, which
only runs when the current stage is complete, is never dispatched). -/
theorem complete_stage_never_reached (s : ManagerState) (h : Reachable s) :
    s.current_stage ≠ Stage.complete
    ∧ GroupChatManager.is_complete s = false := by
  have key : s.current_stage ≠ Stage.complete := by
    induction h with
    | init => simp [ManagerState.init]
    | step llm e hr ih => exact processM_stage llm e _ ih
    | usrReset hr ih => simp [GroupChatManager.reset]
  exact ⟨key, by simp [GroupChatManager.is_complete, key]⟩

theorem complete_stage_never_reached_witness :
    ManagerState.init.current_stage ≠ Stage.complete
    ∧ GroupChatManager.is_complete ManagerState.init = false :=
  complete_stage_never_reached ManagerState.init Reachable.init

end FundAdvisor
